import Mathlib

/-!
A verification development for a small HTTP news API (topics, articles,
comments).  The repository's request handlers (`controller.js`) are embedded
directly; the query module (`models.js`), the error-handling middleware and
the POST/PATCH handlers are not part of the analysed sources, so they are
modelled from the specification (each such definition carries a doc comment
starting with `Modelled from the spec:`).
-/

/-- JSON-like values, used for response bodies so that nullability and
numeric-ness of fields are expressible. -/
inductive Json where
  | null : Json
  | str : String → Json
  | num : Int → Json
  | arr : List Json → Json
  | obj : List (String × Json) → Json
deriving Repr

/-- Look a key up in a JSON object (none on non-objects or missing keys). -/
def Json.lookup : Json → String → Option Json
  | .obj fs, k => fs.lookup k
  | _, _ => none

/-- True when the object has key `k` bound to a non-null value. -/
def Json.hasNonNull (j : Json) (k : String) : Bool :=
  match j.lookup k with
  | some Json.null => false
  | some _ => true
  | none => false

/-- True when the object has key `k` bound to a numeric value. -/
def Json.numField (j : Json) (k : String) : Bool :=
  match j.lookup k with
  | some (Json.num _) => true
  | _ => false

/-- A topic row: `slug` (unique identifier) and `description`. -/
structure Topic where
  slug : String
  description : String
deriving Repr, DecidableEq

/-- An article row, fields as in the data model: integer id, strings for
title/topic/author/body/img-url, a timestamp and a signed vote count. -/
structure Article where
  article_id : Nat
  title : String
  topic : String
  author : String
  body : String
  created_at : Nat
  votes : Int
  article_img_url : String
deriving Repr, DecidableEq

/-- A comment row attached to an article. -/
structure Comment where
  comment_id : Nat
  article_id : Nat
  author : String
  body : String
  votes : Int
  created_at : Nat
deriving Repr, DecidableEq

/-- The relational store: seeded topics/users plus articles and comments,
together with the generators the backend uses on insert (next fresh
comment id and the current timestamp). -/
structure Store where
  topics : List Topic
  users : List String
  articles : List Article
  comments : List Comment
  nextCommentId : Nat
  now : Nat
deriving Repr, DecidableEq

/-- The two client-error classes the core distinguishes (`Fault` is out of
scope: only classified backend outcomes are modelled). -/
inductive ApiError where
  | badRequest : String → ApiError
  | notFound : String → ApiError
deriving Repr, DecidableEq

/-- Numeric value of a decimal digit character, none for non-digits. -/
def digitVal (c : Char) : Option Nat :=
  if 48 ≤ c.toNat ∧ c.toNat ≤ 57 then some (c.toNat - 48) else none

/-- Accumulate decimal digits left to right; none on any non-digit. -/
def parseIdAux : List Char → Nat → Option Nat
  | [], acc => some acc
  | c :: cs, acc =>
    match digitVal c with
    | some d => parseIdAux cs (acc * 10 + d)
    | none => none

/-- Parse a `*_id` path parameter: it must be a non-negative decimal
integer, anything else is rejected. -/
def parseId (s : String) : Option Nat :=
  if s.data.isEmpty then none else parseIdAux s.data 0

/-- Serialize an article the way the API sends it (timestamps are sent as
strings, votes as a number). -/
def Article.toJson (a : Article) : Json :=
  Json.obj [("article_id", Json.num a.article_id),
            ("title", Json.str a.title),
            ("topic", Json.str a.topic),
            ("author", Json.str a.author),
            ("body", Json.str a.body),
            ("created_at", Json.str (toString a.created_at)),
            ("votes", Json.num a.votes),
            ("article_img_url", Json.str a.article_img_url)]

/-- Serialize a topic row. -/
def Topic.toJson (t : Topic) : Json :=
  Json.obj [("slug", Json.str t.slug), ("description", Json.str t.description)]

/-- Serialize a comment row. -/
def Comment.toJson (c : Comment) : Json :=
  Json.obj [("comment_id", Json.num c.comment_id),
            ("article_id", Json.num c.article_id),
            ("author", Json.str c.author),
            ("body", Json.str c.body),
            ("votes", Json.num c.votes),
            ("created_at", Json.str (toString c.created_at))]

/-- An article augmented with its derived `comment_count`. -/
structure ArticleWithCount where
  article : Article
  comment_count : Nat
deriving Repr, DecidableEq

/-- Serialize an article together with its comment count. -/
def ArticleWithCount.toJson (x : ArticleWithCount) : Json :=
  match x.article.toJson with
  | Json.obj fs => Json.obj (fs ++ [("comment_count", Json.num x.comment_count)])
  | j => j

/-- Number of comments attached to a given article id (the left-join
aggregate: 0 when no comment references the article). -/
def commentCount (s : Store) (id : Nat) : Nat :=
  (s.comments.filter (fun c => c.article_id == id)).length

/-- Sort order used by the article list: descending `created_at`. -/
def articleDescLe (a b : Article) : Prop :=
  b.created_at ≤ a.created_at

instance : DecidableRel articleDescLe :=
  fun a b => inferInstanceAs (Decidable (b.created_at ≤ a.created_at))

instance : IsTotal Article articleDescLe :=
  ⟨fun a b => Nat.le_total b.created_at a.created_at⟩

instance : IsTrans Article articleDescLe :=
  ⟨fun _ _ _ h1 h2 => le_trans h2 h1⟩

/-- Sort order used by comment listings: descending `created_at`. -/
def commentDescLe (a b : Comment) : Prop :=
  b.created_at ≤ a.created_at

instance : DecidableRel commentDescLe :=
  fun a b => inferInstanceAs (Decidable (b.created_at ≤ a.created_at))

instance : IsTotal Comment commentDescLe :=
  ⟨fun a b => Nat.le_total b.created_at a.created_at⟩

instance : IsTrans Comment commentDescLe :=
  ⟨fun _ _ _ h1 h2 => le_trans h2 h1⟩

/-- A query-layer outcome together with whether a statement actually
reached the store (`dbQueried = false` means the call short-circuited on
validation before issuing any query). -/
structure Traced (α : Type) where
  dbQueried : Bool
  result : Except ApiError α
deriving Repr

/-- Modelled from the spec: `models.js` (`retreiveTopics`) is not among the
analysed sources.  Per the spec, `fetchTopics()` returns all Topic rows;
the raw query-string object is accepted (and ignored, no query parameters
being specified for this endpoint).  The backend result is a row-set
object whose `rows` field holds the topic rows. -/
structure TopicsResult where
  rows : List Topic
deriving Repr, DecidableEq

/-- Modelled from the spec: the query layer's topics fetch (see
`TopicsResult`). -/
def retreiveTopics (s : Store) (_query : List (String × String)) :
    Except ApiError TopicsResult :=
  Except.ok ⟨s.topics⟩

/-- Modelled from the spec: `models.js` (`retrieveArticleById`) is not among
the analysed sources.  Per the spec, the `*_id` parameter is validated
before any query is issued (short-circuiting with bad-request), zero rows
for a valid id is translated to not-found, and one row is returned. -/
def retrieveArticleByIdT (s : Store) (idStr : String) : Traced Article :=
  match parseId idStr with
  | none => ⟨false, Except.error (ApiError.badRequest "Invalid input")⟩
  | some id =>
    match s.articles.find? (fun a => a.article_id == id) with
    | none => ⟨true, Except.error (ApiError.notFound "Article not found")⟩
    | some a => ⟨true, Except.ok a⟩

/-- The article-by-id query as the controller sees it. -/
def retrieveArticleById (s : Store) (idStr : String) : Except ApiError Article :=
  (retrieveArticleByIdT s idStr).result

/-- Modelled from the spec: `models.js` (`retrieveAllArticles`) is not among
the analysed sources.  Per the spec, all article rows are returned sorted
by `created_at` descending, each augmented with `comment_count` via a
left join against comments (zero-comment articles appear with count 0). -/
def allArticlesRows (s : Store) : List ArticleWithCount :=
  (List.insertionSort articleDescLe s.articles).map
    (fun a => ⟨a, commentCount s a.article_id⟩)

/-- The article-list query as the controller sees it (see
`allArticlesRows`). -/
def retrieveAllArticles (s : Store) : Except ApiError (List ArticleWithCount) :=
  Except.ok (allArticlesRows s)

/-- Modelled from the spec: `models.js` (`retrieveCommentsByArticleId`) is
not among the analysed sources.  Per the spec, the id is validated before
querying (bad-request short-circuit), a nonexistent article is translated
to not-found, and an existing article yields its comments sorted by
`created_at` descending — the empty list is a valid result, distinct from
the nonexistent-article case. -/
def retrieveCommentsByArticleIdT (s : Store) (idStr : String) :
    Traced (List Comment) :=
  match parseId idStr with
  | none => ⟨false, Except.error (ApiError.badRequest "Invalid input")⟩
  | some id =>
    if s.articles.any (fun a => a.article_id == id) then
      ⟨true, Except.ok (List.insertionSort commentDescLe
        (s.comments.filter (fun c => c.article_id == id)))⟩
    else
      ⟨true, Except.error (ApiError.notFound "Article not found")⟩

/-- The comments-by-article query as the controller sees it. -/
def retrieveCommentsByArticleId (s : Store) (idStr : String) :
    Except ApiError (List Comment) :=
  (retrieveCommentsByArticleIdT s idStr).result

/-- Modelled from the spec: `models.js` (`insertComment`) is not among the
analysed sources.  Per the spec, the id is validated first; a body whose
field names are not exactly `author` and `body` is a column mismatch
(bad-request "Invalid column value"); a well-formed body whose `author`
names no existing user violates the foreign key (bad-request "Invalid key
value insert"); otherwise one row is inserted and returned with a
generated id, a generated timestamp and default `votes = 0`. -/
def insertCommentT (s : Store) (idStr : String) (b : List (String × String)) :
    Traced (Comment × Store) :=
  match parseId idStr with
  | none => ⟨false, Except.error (ApiError.badRequest "Invalid input")⟩
  | some id =>
    match b.lookup "author", b.lookup "body" with
    | some author, some btext =>
      if b.all (fun kv => kv.1 == "author" || kv.1 == "body") then
        if s.users.contains author then
          let c : Comment := ⟨s.nextCommentId, id, author, btext, 0, s.now⟩
          ⟨true, Except.ok (c, { s with comments := s.comments ++ [c],
                                        nextCommentId := s.nextCommentId + 1 })⟩
        else
          ⟨true, Except.error (ApiError.badRequest "Invalid key value insert")⟩
      else
        ⟨false, Except.error (ApiError.badRequest "Invalid column value")⟩
    | _, _ => ⟨false, Except.error (ApiError.badRequest "Invalid column value")⟩

/-- The comment insert as the controller sees it. -/
def insertComment (s : Store) (idStr : String) (b : List (String × String)) :
    Except ApiError (Comment × Store) :=
  (insertCommentT s idStr b).result

/-- Modelled from the spec: `models.js` (`adjustArticleVotes`) is not among
the analysed sources.  Per the spec, the id is validated first; the body
must contain exactly the key `inc_votes` with an integer value, any other
key name being a column mismatch (bad-request "Invalid column value"); a
valid id with no matching article is not-found; otherwise the vote delta
is applied (unbounded, the result may be negative) and the updated row
returned. -/
def adjustArticleVotesT (s : Store) (idStr : String) (b : List (String × Int)) :
    Traced (Article × Store) :=
  match parseId idStr with
  | none => ⟨false, Except.error (ApiError.badRequest "Invalid input")⟩
  | some id =>
    match b.lookup "inc_votes" with
    | some d =>
      if b.all (fun kv => kv.1 == "inc_votes") then
        match s.articles.find? (fun a => a.article_id == id) with
        | some a =>
          let a2 : Article := { a with votes := a.votes + d }
          let arts := s.articles.map (fun x => if x.article_id == id then a2 else x)
          ⟨true, Except.ok (a2, { s with articles := arts })⟩
        | none => ⟨true, Except.error (ApiError.notFound "Article not found")⟩
      else
        ⟨false, Except.error (ApiError.badRequest "Invalid column value")⟩
    | none => ⟨false, Except.error (ApiError.badRequest "Invalid column value")⟩

/-- The vote adjustment as the controller sees it. -/
def adjustArticleVotes (s : Store) (idStr : String) (b : List (String × Int)) :
    Except ApiError (Article × Store) :=
  (adjustArticleVotesT s idStr b).result

/-- The parts of the parsed request a handler reads: the `article_id` route
parameter and the raw query-string object. -/
structure Req where
  article_id : String := ""
  query : List (String × String) := []
deriving Repr, DecidableEq

/-- What a handler does with the response channel: either it writes a
single status/body pair, or it forwards an error to `next`. -/
inductive HandlerOutcome where
  | respond : Nat → Json → HandlerOutcome
  | forwardErr : ApiError → HandlerOutcome
deriving Repr

/-- The `getTopics` handler of `controller.js`: it passes the request's raw
query object to `retreiveTopics`, destructures `rows` from the resolved
result and sends it unwrapped with status 200; a rejection goes to
`next`. -/
def getTopics (f : List (String × String) → Except ApiError TopicsResult)
    (req : Req) : HandlerOutcome :=
  match f req.query with
  | Except.ok r => HandlerOutcome.respond 200 (Json.arr (r.rows.map Topic.toJson))
  | Except.error e => HandlerOutcome.forwardErr e

/-- The `getArticleById` handler of `controller.js`: it extracts
`article_id` from the route parameters, delegates to the query layer and
sends the article unwrapped with status 200; a rejection goes to `next`. -/
def getArticleById (f : String → Except ApiError Article)
    (req : Req) : HandlerOutcome :=
  match f req.article_id with
  | Except.ok a => HandlerOutcome.respond 200 a.toJson
  | Except.error e => HandlerOutcome.forwardErr e

/-- The `getAllArticles` handler of `controller.js`: no parameters are
read; the resolved list is sent wrapped as `{articles}` with status 200;
a rejection goes to `next`. -/
def getAllArticles (f : Unit → Except ApiError (List ArticleWithCount)) :
    HandlerOutcome :=
  match f () with
  | Except.ok as =>
    HandlerOutcome.respond 200
      (Json.obj [("articles", Json.arr (as.map ArticleWithCount.toJson))])
  | Except.error e => HandlerOutcome.forwardErr e

/-- The `getCommentsByArticleId` handler of `controller.js`: it extracts
`article_id`, delegates to the query layer and sends the comments wrapped
as `{comments}` with status 200; a rejection goes to `next`. -/
def getCommentsByArticleId (f : String → Except ApiError (List Comment))
    (req : Req) : HandlerOutcome :=
  match f req.article_id with
  | Except.ok cs =>
    HandlerOutcome.respond 200
      (Json.obj [("comments", Json.arr (cs.map Comment.toJson))])
  | Except.error e => HandlerOutcome.forwardErr e

/-- An HTTP response: status code and JSON body. -/
structure Response where
  status : Nat
  body : Json
deriving Repr

/-- Modelled from the spec: the error-handling middleware (reached via
`next`) is not among the analysed sources.  Per the spec, bad-request
surfaces as 400 and not-found as 404, each with a short `msg` body. -/
def handleApiError : ApiError → Response
  | ApiError.badRequest m => ⟨400, Json.obj [("msg", Json.str m)]⟩
  | ApiError.notFound m => ⟨404, Json.obj [("msg", Json.str m)]⟩

/-- Run a handler outcome to a wire response, leaving the store unchanged
(the GET pipeline never writes). -/
def runOutcome (s : Store) : HandlerOutcome → Response × Store
  | HandlerOutcome.respond st b => (⟨st, b⟩, s)
  | HandlerOutcome.forwardErr e => (handleApiError e, s)

/-- The full GET /api/topics pipeline: handler over the modelled query
layer, errors through the modelled middleware. -/
def getTopicsEndpoint (s : Store) (req : Req) : Response × Store :=
  runOutcome s (getTopics (retreiveTopics s) req)

/-- The full GET /api/articles/:article_id pipeline. -/
def getArticleByIdEndpoint (s : Store) (req : Req) : Response × Store :=
  runOutcome s (getArticleById (retrieveArticleById s) req)

/-- The full GET /api/articles pipeline. -/
def getAllArticlesEndpoint (s : Store) (_req : Req) : Response × Store :=
  runOutcome s (getAllArticles (fun _ => retrieveAllArticles s))

/-- The full GET /api/articles/:article_id/comments pipeline. -/
def getCommentsEndpoint (s : Store) (req : Req) : Response × Store :=
  runOutcome s (getCommentsByArticleId (retrieveCommentsByArticleId s) req)

/-- Modelled from the spec: the POST /api/articles/:article_id/comments
handler is not among the analysed sources (`controller.js` holds only the
four GET handlers).  Per the spec, a successful insert responds 201 with
the inserted comment wrapped as `{comment}`; failures go through the
error middleware and leave the store unchanged. -/
def postCommentEndpoint (s : Store) (req : Req) (b : List (String × String)) :
    Response × Store :=
  match insertComment s req.article_id b with
  | Except.ok (c, s2) => (⟨201, Json.obj [("comment", c.toJson)]⟩, s2)
  | Except.error e => (handleApiError e, s)

/-- Modelled from the spec: the PATCH /api/articles/:article_id handler is
not among the analysed sources.  Per the spec, a successful vote
adjustment responds 200 with the updated article wrapped as `{article}`;
failures go through the error middleware and leave the store unchanged. -/
def patchArticleEndpoint (s : Store) (req : Req) (b : List (String × Int)) :
    Response × Store :=
  match adjustArticleVotes s req.article_id b with
  | Except.ok (a, s2) => (⟨200, Json.obj [("article", a.toJson)]⟩, s2)
  | Except.error e => (handleApiError e, s)

/-- A small concrete store used to exercise the theorems: two seeded users,
two articles (article 1 with votes 100 and two comments, article 2 with
none) and one topic. -/
def sampleStore : Store where
  topics := [⟨"mitch", "The man"⟩]
  users := ["butter_bridge", "icellusedkars"]
  articles := [⟨1, "A", "mitch", "butter_bridge", "text", 100, 100, "img"⟩,
               ⟨2, "B", "mitch", "icellusedkars", "text2", 50, 0, "img"⟩]
  comments := [⟨1, 1, "butter_bridge", "c1", 16, 40⟩,
               ⟨2, 1, "icellusedkars", "c2", 14, 60⟩]
  nextCommentId := 3
  now := 200

/-- C9: each of the four GET handlers produces exactly one of two
outcomes — a single 200 response with the shaped payload passed through
unchanged, or the query layer's rejection forwarded to next — and no
rejection is ever downgraded to a success response. -/
theorem handlers_respond_or_forward :
    (∀ (f : List (String × String) → Except ApiError TopicsResult) (req : Req),
      (∃ r, f req.query = Except.ok r ∧
        getTopics f req =
          HandlerOutcome.respond 200 (Json.arr (r.rows.map Topic.toJson))) ∨
      (∃ e, f req.query = Except.error e ∧
        getTopics f req = HandlerOutcome.forwardErr e)) ∧
    (∀ (f : String → Except ApiError Article) (req : Req),
      (∃ a, f req.article_id = Except.ok a ∧
        getArticleById f req = HandlerOutcome.respond 200 a.toJson) ∨
      (∃ e, f req.article_id = Except.error e ∧
        getArticleById f req = HandlerOutcome.forwardErr e)) ∧
    (∀ (f : Unit → Except ApiError (List ArticleWithCount)),
      (∃ as, f () = Except.ok as ∧
        getAllArticles f = HandlerOutcome.respond 200
          (Json.obj [("articles", Json.arr (as.map ArticleWithCount.toJson))])) ∨
      (∃ e, f () = Except.error e ∧
        getAllArticles f = HandlerOutcome.forwardErr e)) ∧
    (∀ (f : String → Except ApiError (List Comment)) (req : Req),
      (∃ cs, f req.article_id = Except.ok cs ∧
        getCommentsByArticleId f req = HandlerOutcome.respond 200
          (Json.obj [("comments", Json.arr (cs.map Comment.toJson))])) ∨
      (∃ e, f req.article_id = Except.error e ∧
        getCommentsByArticleId f req = HandlerOutcome.forwardErr e)) := by
  refine ⟨fun f req => ?_, fun f req => ?_, fun f => ?_, fun f req => ?_⟩
  · cases h : f req.query with
    | ok r => exact Or.inl ⟨r, rfl, by simp [getTopics, h]⟩
    | error e => exact Or.inr ⟨e, rfl, by simp [getTopics, h]⟩
  · cases h : f req.article_id with
    | ok a => exact Or.inl ⟨a, rfl, by simp [getArticleById, h]⟩
    | error e => exact Or.inr ⟨e, rfl, by simp [getArticleById, h]⟩
  · cases h : f () with
    | ok as => exact Or.inl ⟨as, rfl, by simp [getAllArticles, h]⟩
    | error e => exact Or.inr ⟨e, rfl, by simp [getAllArticles, h]⟩
  · cases h : f req.article_id with
    | ok cs => exact Or.inl ⟨cs, rfl, by simp [getCommentsByArticleId, h]⟩
    | error e => exact Or.inr ⟨e, rfl, by simp [getCommentsByArticleId, h]⟩

/-- C10: the getTopics handler forwards the request's raw query-string
object unmodified to the query layer, and on success sends exactly the
resolved rows array, unwrapped, at the top level of the 200 body. -/
theorem getTopics_passes_query_sends_rows
    (f : List (String × String) → Except ApiError TopicsResult) (req : Req)
    (rows : List Topic) (h : f req.query = Except.ok ⟨rows⟩) :
    getTopics f req =
      HandlerOutcome.respond 200 (Json.arr (rows.map Topic.toJson)) := by
  simp [getTopics, h]

/-- Witness for C10 at a concrete query function and request. -/
theorem getTopics_passes_query_sends_rows_witness :
    getTopics (fun _ => Except.ok ⟨[⟨"mitch", "The man"⟩]⟩)
        { article_id := "", query := [("a", "b")] } =
      HandlerOutcome.respond 200
        (Json.arr ([Topic.mk "mitch" "The man"].map Topic.toJson)) :=
  getTopics_passes_query_sends_rows _ _ _ rfl

/-- C1: on GET /api/articles/:article_id, an integer id present in the
store yields 200 with the article, all of whose serialized fields
(title, topic, author, body, created_at, votes, article_img_url) are
non-null and whose votes field is numeric; an integer id with no row
yields 404; a non-integer id yields 400. -/
theorem articleById_statuses (s : Store) (idStr : String) :
    (∀ id a, parseId idStr = some id →
      s.articles.find? (fun x => x.article_id == id) = some a →
      (getArticleByIdEndpoint s { article_id := idStr }).1 = ⟨200, a.toJson⟩ ∧
      a.toJson.hasNonNull "title" = true ∧
      a.toJson.hasNonNull "topic" = true ∧
      a.toJson.hasNonNull "author" = true ∧
      a.toJson.hasNonNull "body" = true ∧
      a.toJson.hasNonNull "created_at" = true ∧
      a.toJson.hasNonNull "votes" = true ∧
      a.toJson.hasNonNull "article_img_url" = true ∧
      a.toJson.numField "votes" = true) ∧
    (∀ id, parseId idStr = some id →
      s.articles.find? (fun x => x.article_id == id) = none →
      (getArticleByIdEndpoint s { article_id := idStr }).1.status = 404) ∧
    (parseId idStr = none →
      (getArticleByIdEndpoint s { article_id := idStr }).1.status = 400) := by
  refine ⟨fun id a hid ha => ?_, fun id hid ha => ?_, fun hid => ?_⟩
  · refine ⟨?_, rfl, rfl, rfl, rfl, rfl, rfl, rfl, rfl⟩
    simp [getArticleByIdEndpoint, getArticleById, retrieveArticleById,
          retrieveArticleByIdT, hid, ha, runOutcome]
  · simp [getArticleByIdEndpoint, getArticleById, retrieveArticleById,
          retrieveArticleByIdT, hid, ha, runOutcome, handleApiError]
  · simp [getArticleByIdEndpoint, getArticleById, retrieveArticleById,
          retrieveArticleByIdT, hid, runOutcome, handleApiError]

/-- Witness for C1: on the sample store, id "1" resolves with a 200, the
unknown id "9" gives 404 and the non-integer id "wrong" gives 400. -/
theorem articleById_statuses_witness :
    (getArticleByIdEndpoint sampleStore { article_id := "1" }).1 =
      ⟨200, (Article.mk 1 "A" "mitch" "butter_bridge" "text" 100 100 "img").toJson⟩ ∧
    (getArticleByIdEndpoint sampleStore { article_id := "9" }).1.status = 404 ∧
    (getArticleByIdEndpoint sampleStore { article_id := "wrong" }).1.status = 400 :=
  ⟨((articleById_statuses sampleStore "1").1 1 _ (by decide) (by decide)).1,
   (articleById_statuses sampleStore "9").2.1 9 (by decide) (by decide),
   (articleById_statuses sampleStore "wrong").2.2 (by decide)⟩

/-- C7: a request whose article_id path parameter does not parse as a
non-negative integer is rejected with 400 by every id-taking pipeline,
and the short-circuit happens before any statement is issued to the
store (`dbQueried = false` on every query-layer call). -/
theorem invalidId_shortCircuits (s : Store) (idStr : String)
    (b : List (String × String)) (p : List (String × Int))
    (h : parseId idStr = none) :
    (retrieveArticleByIdT s idStr).dbQueried = false ∧
    (retrieveCommentsByArticleIdT s idStr).dbQueried = false ∧
    (insertCommentT s idStr b).dbQueried = false ∧
    (adjustArticleVotesT s idStr p).dbQueried = false ∧
    (getArticleByIdEndpoint s { article_id := idStr }).1.status = 400 ∧
    (getCommentsEndpoint s { article_id := idStr }).1.status = 400 ∧
    (postCommentEndpoint s { article_id := idStr } b).1.status = 400 ∧
    (patchArticleEndpoint s { article_id := idStr } p).1.status = 400 := by
  refine ⟨?_, ?_, ?_, ?_, ?_, ?_, ?_, ?_⟩ <;>
    simp [retrieveArticleByIdT, retrieveCommentsByArticleIdT, insertCommentT,
          adjustArticleVotesT, h, getArticleByIdEndpoint, getCommentsEndpoint,
          postCommentEndpoint, patchArticleEndpoint, getArticleById,
          getCommentsByArticleId, retrieveArticleById,
          retrieveCommentsByArticleId, insertComment, adjustArticleVotes,
          runOutcome, handleApiError]

/-- Witness for C7 at the non-integer id "wrong" on the sample store. -/
theorem invalidId_shortCircuits_witness :
    (retrieveArticleByIdT sampleStore "wrong").dbQueried = false ∧
    (retrieveCommentsByArticleIdT sampleStore "wrong").dbQueried = false ∧
    (insertCommentT sampleStore "wrong" [("author", "u"), ("body", "t")]).dbQueried = false ∧
    (adjustArticleVotesT sampleStore "wrong" [("inc_votes", 1)]).dbQueried = false ∧
    (getArticleByIdEndpoint sampleStore { article_id := "wrong" }).1.status = 400 ∧
    (getCommentsEndpoint sampleStore { article_id := "wrong" }).1.status = 400 ∧
    (postCommentEndpoint sampleStore { article_id := "wrong" }
      [("author", "u"), ("body", "t")]).1.status = 400 ∧
    (patchArticleEndpoint sampleStore { article_id := "wrong" }
      [("inc_votes", 1)]).1.status = 400 :=
  invalidId_shortCircuits sampleStore "wrong" _ _ (by decide)

/-- C5: for a syntactically valid article id, the returned comments are
sorted descending by created_at; an existing article with zero comments
yields 200 with an empty array (never 404), which is distinct from the
nonexistent-article case (404). -/
theorem commentsByArticle_spec (s : Store) (idStr : String) (id : Nat)
    (hid : parseId idStr = some id) :
    (∀ cs, retrieveCommentsByArticleId s idStr = Except.ok cs →
      List.Sorted commentDescLe cs) ∧
    (s.articles.any (fun a => a.article_id == id) = true →
      s.comments.filter (fun c => c.article_id == id) = [] →
      (getCommentsEndpoint s { article_id := idStr }).1 =
        ⟨200, Json.obj [("comments", Json.arr [])]⟩ ∧
      (getCommentsEndpoint s { article_id := idStr }).1.status ≠ 404) ∧
    (s.articles.any (fun a => a.article_id == id) = false →
      (getCommentsEndpoint s { article_id := idStr }).1.status = 404) := by
  refine ⟨fun cs hcs => ?_, fun hex hemp => ?_, fun hnone => ?_⟩
  · unfold retrieveCommentsByArticleId retrieveCommentsByArticleIdT at hcs
    rw [hid] at hcs
    by_cases hany : s.articles.any (fun a => a.article_id == id) = true
    · simp [hany] at hcs
      exact hcs ▸ List.sorted_insertionSort commentDescLe _
    · simp [hany] at hcs
  · have h : retrieveCommentsByArticleId s idStr = Except.ok [] := by
      unfold retrieveCommentsByArticleId retrieveCommentsByArticleIdT
      rw [hid]
      simp [hex, hemp]
    constructor
    · simp [getCommentsEndpoint, getCommentsByArticleId, h, runOutcome]
    · simp [getCommentsEndpoint, getCommentsByArticleId, h, runOutcome]
  · have h : retrieveCommentsByArticleId s idStr =
        Except.error (ApiError.notFound "Article not found") := by
      unfold retrieveCommentsByArticleId retrieveCommentsByArticleIdT
      rw [hid]
      simp [hnone]
    simp [getCommentsEndpoint, getCommentsByArticleId, h, runOutcome,
          handleApiError]

/-- Witness for C5: article 1's comments come back sorted descending,
article 2 (existing, zero comments) gets 200 with an empty array, and
the unknown article 9 gets 404. -/
theorem commentsByArticle_spec_witness :
    List.Sorted commentDescLe
      [Comment.mk 2 1 "icellusedkars" "c2" 14 60,
       Comment.mk 1 1 "butter_bridge" "c1" 16 40] ∧
    (getCommentsEndpoint sampleStore { article_id := "2" }).1 =
      ⟨200, Json.obj [("comments", Json.arr [])]⟩ ∧
    (getCommentsEndpoint sampleStore { article_id := "9" }).1.status = 404 :=
  ⟨(commentsByArticle_spec sampleStore "1" 1 rfl).1 _ rfl,
   ((commentsByArticle_spec sampleStore "2" 2 rfl).2.1 (by decide) (by decide)).1,
   (commentsByArticle_spec sampleStore "9" 9 rfl).2.2 (by decide)⟩

/-- C2: on POST comments, a body with an unexpected, renamed or missing
field name yields exactly 400 "Invalid column value", while a well-formed
body whose author names no existing user yields exactly 400 "Invalid key
value insert"; the two messages are distinct. -/
theorem post_error_messages (s : Store) (idStr : String) (id : Nat)
    (b : List (String × String)) (hid : parseId idStr = some id) :
    ((b.lookup "author" = none ∨ b.lookup "body" = none ∨
        b.all (fun kv => kv.1 == "author" || kv.1 == "body") = false) →
      insertComment s idStr b =
        Except.error (ApiError.badRequest "Invalid column value") ∧
      (postCommentEndpoint s { article_id := idStr } b).1 =
        ⟨400, Json.obj [("msg", Json.str "Invalid column value")]⟩) ∧
    (∀ author btext, b.lookup "author" = some author →
      b.lookup "body" = some btext →
      b.all (fun kv => kv.1 == "author" || kv.1 == "body") = true →
      s.users.contains author = false →
      insertComment s idStr b =
        Except.error (ApiError.badRequest "Invalid key value insert") ∧
      (postCommentEndpoint s { article_id := idStr } b).1 =
        ⟨400, Json.obj [("msg", Json.str "Invalid key value insert")]⟩) ∧
    "Invalid column value" ≠ "Invalid key value insert" := by
  refine ⟨fun h => ?_, fun author btext ha hb hall hu => ?_, by decide⟩
  · have hh : insertCommentT s idStr b =
        ⟨false, Except.error (ApiError.badRequest "Invalid column value")⟩ := by
      unfold insertCommentT
      rw [hid]
      rcases h with h | h | h
      · cases hb : b.lookup "body" <;> simp [h, hb]
      · cases ha : b.lookup "author" <;> simp [h, ha]
      · cases ha : b.lookup "author" <;> cases hb : b.lookup "body" <;>
          simp [h, ha, hb]
    exact ⟨by simp [insertComment, hh],
           by simp [postCommentEndpoint, insertComment, hh, handleApiError]⟩
  · have hu2 : author ∉ s.users := by simpa using hu
    have hh : insertCommentT s idStr b =
        ⟨true, Except.error (ApiError.badRequest "Invalid key value insert")⟩ := by
      unfold insertCommentT
      rw [hid]
      simp [ha, hb, hall, hu2]
    exact ⟨by simp [insertComment, hh],
           by simp [postCommentEndpoint, insertComment, hh, handleApiError]⟩

/-- Witness for C2: a renamed `authorrr` field gives "Invalid column
value", an unknown author gives "Invalid key value insert". -/
theorem post_error_messages_witness :
    insertComment sampleStore "1"
        [("authorrr", "butter_bridge"), ("body", "master blaster")] =
      Except.error (ApiError.badRequest "Invalid column value") ∧
    insertComment sampleStore "1"
        [("author", "butterrrr_bridge"), ("body", "master blaster")] =
      Except.error (ApiError.badRequest "Invalid key value insert") :=
  ⟨((post_error_messages sampleStore "1" 1
      [("authorrr", "butter_bridge"), ("body", "master blaster")] rfl).1
      (Or.inl rfl)).1,
   ((post_error_messages sampleStore "1" 1
      [("author", "butterrrr_bridge"), ("body", "master blaster")] rfl).2.1
      "butterrrr_bridge" "master blaster" rfl rfl rfl rfl).1⟩

/-- C6: a PATCH body whose field names are not exactly `inc_votes` (a
missing or renamed key) is rejected with 400 "Invalid column value". -/
theorem patch_invalid_key (s : Store) (idStr : String) (id : Nat)
    (b : List (String × Int)) (hid : parseId idStr = some id)
    (hbad : b.lookup "inc_votes" = none ∨
      b.all (fun kv => kv.1 == "inc_votes") = false) :
    adjustArticleVotes s idStr b =
      Except.error (ApiError.badRequest "Invalid column value") ∧
    (patchArticleEndpoint s { article_id := idStr } b).1 =
      ⟨400, Json.obj [("msg", Json.str "Invalid column value")]⟩ := by
  have hh : adjustArticleVotesT s idStr b =
      ⟨false, Except.error (ApiError.badRequest "Invalid column value")⟩ := by
    unfold adjustArticleVotesT
    rw [hid]
    rcases hbad with h | h
    · simp [h]
    · cases hv : b.lookup "inc_votes" <;> simp [h, hv]
  exact ⟨by simp [adjustArticleVotes, hh],
         by simp [patchArticleEndpoint, adjustArticleVotes, hh, handleApiError]⟩

/-- Witness for C6: the key `inc_votessss` is rejected with 400 "Invalid
column value". -/
theorem patch_invalid_key_witness :
    (patchArticleEndpoint sampleStore { article_id := "1" }
        [("inc_votessss", 5)]).1 =
      ⟨400, Json.obj [("msg", Json.str "Invalid column value")]⟩ :=
  (patch_invalid_key sampleStore "1" 1 [("inc_votessss", 5)] rfl (Or.inl rfl)).2

/-- C8: a successful POST of `{author, body}` for an existing user inserts
one row and responds 201 with a comment whose author/body equal the
request's values, whose article_id equals the path parameter, and which
carries the generated comment id, the generated timestamp and default
votes 0. -/
theorem post_success (s : Store) (idStr : String) (id : Nat)
    (author btext : String) (hid : parseId idStr = some id)
    (hu : s.users.contains author = true) :
    ∃ c s2, insertComment s idStr [("author", author), ("body", btext)] =
        Except.ok (c, s2) ∧
      c.author = author ∧ c.body = btext ∧ c.article_id = id ∧
      c.comment_id = s.nextCommentId ∧ c.created_at = s.now ∧ c.votes = 0 ∧
      s2.comments = s.comments ++ [c] ∧
      (postCommentEndpoint s { article_id := idStr }
          [("author", author), ("body", btext)]).1 =
        ⟨201, Json.obj [("comment", c.toJson)]⟩ := by
  have hu2 : author ∈ s.users := by simpa using hu
  have hh : insertCommentT s idStr [("author", author), ("body", btext)] =
      ⟨true, Except.ok (⟨s.nextCommentId, id, author, btext, 0, s.now⟩,
        { s with
          comments := s.comments ++ [⟨s.nextCommentId, id, author, btext, 0, s.now⟩],
          nextCommentId := s.nextCommentId + 1 })⟩ := by
    unfold insertCommentT
    rw [hid]
    simp [List.lookup, hu2]
  refine ⟨⟨s.nextCommentId, id, author, btext, 0, s.now⟩,
    { s with
      comments := s.comments ++ [⟨s.nextCommentId, id, author, btext, 0, s.now⟩],
      nextCommentId := s.nextCommentId + 1 },
    ?_, rfl, rfl, rfl, rfl, rfl, rfl, rfl, ?_⟩
  · simp [insertComment, hh]
  · simp [postCommentEndpoint, insertComment, hh]

/-- Witness for C8: butter_bridge posts "master blaster" on article 1. -/
theorem post_success_witness :
    ∃ c s2, insertComment sampleStore "1"
        [("author", "butter_bridge"), ("body", "master blaster")] =
        Except.ok (c, s2) ∧
      c.author = "butter_bridge" ∧ c.body = "master blaster" ∧
      c.article_id = 1 ∧ c.comment_id = 3 ∧ c.created_at = 200 ∧
      c.votes = 0 ∧ s2.comments = sampleStore.comments ++ [c] ∧
      (postCommentEndpoint sampleStore { article_id := "1" }
          [("author", "butter_bridge"), ("body", "master blaster")]).1 =
        ⟨201, Json.obj [("comment", c.toJson)]⟩ :=
  post_success sampleStore "1" 1 "butter_bridge" "master blaster" rfl rfl

/-- Running any handler outcome leaves the store untouched: the GET
pipelines never write. -/
theorem runOutcome_snd (s : Store) (o : HandlerOutcome) : (runOutcome s o).2 = s := by
  cases o <;> rfl

/-- The row list after a vote update writes back the adjusted article. -/
def replaceVotes (l : List Article) (id : Nat) (a2 : Article) : List Article :=
  l.map (fun x => if x.article_id == id then a2 else x)

/-- After replacing the article with the matching id, `find?` on the
updated row list returns the replacement. -/
theorem find?_replaceVotes (l : List Article) (id : Nat) (a a2 : Article)
    (h : l.find? (fun x => x.article_id == id) = some a)
    (h2 : a2.article_id = id) :
    (replaceVotes l id a2).find? (fun x => x.article_id == id) = some a2 := by
  induction l with
  | nil => simp [replaceVotes] at h
  | cons hd tl ih =>
    unfold replaceVotes
    rw [List.map_cons]
    by_cases hh : hd.article_id = id
    · have hb : (hd.article_id == id) = true := by simp [hh]
      rw [if_pos hb]
      exact List.find?_cons_of_pos _ (by simp [h2])
    · have hb : ¬(hd.article_id == id) = true := by simp [hh]
      rw [List.find?_cons_of_neg (p := fun x : Article => x.article_id == id) _ hb] at h
      rw [if_neg hb]
      rw [List.find?_cons_of_neg (p := fun x : Article => x.article_id == id) _ hb]
      have := ih h
      unfold replaceVotes at this
      exact this

/-- The article with its votes shifted by a delta. -/
def bumpVotes (a : Article) (d : Int) : Article :=
  { a with votes := a.votes + d }

/-- One successful vote-adjustment step: with a valid id and a matching
row, the query returns the bumped article and writes it back. -/
theorem adjustArticleVotesT_found (s : Store) (idStr : String) (id : Nat)
    (a : Article) (d : Int) (hid : parseId idStr = some id)
    (ha : s.articles.find? (fun x => x.article_id == id) = some a) :
    adjustArticleVotesT s idStr [("inc_votes", d)] =
      ⟨true, Except.ok (bumpVotes a d,
        { s with articles := replaceVotes s.articles id (bumpVotes a d) })⟩ := by
  unfold adjustArticleVotesT
  rw [hid]
  simp [List.lookup, ha, replaceVotes, bumpVotes]

/-- C4: PATCH with `{inc_votes: d}` on an existing article adds exactly
`d` to the stored votes (with no lower bound: the result is an
unconstrained integer, so it may be negative); repeating the same PATCH
reapplies the delta, giving `votes + d + d`; GET endpoints never change
the store, so repeating them without intervening writes returns
identical results. -/
theorem patch_applies_delta (s : Store) (idStr : String) (id : Nat)
    (a : Article) (d : Int) (hid : parseId idStr = some id)
    (ha : s.articles.find? (fun x => x.article_id == id) = some a) :
    ∃ a1 s1, adjustArticleVotes s idStr [("inc_votes", d)] = Except.ok (a1, s1) ∧
      a1.votes = a.votes + d ∧
      (patchArticleEndpoint s { article_id := idStr } [("inc_votes", d)]).1.status = 200 ∧
      (∃ a2 s2, adjustArticleVotes s1 idStr [("inc_votes", d)] = Except.ok (a2, s2) ∧
        a2.votes = a.votes + d + d) ∧
      (∀ req : Req,
        (getTopicsEndpoint s req).2 = s ∧
        (getArticleByIdEndpoint s req).2 = s ∧
        (getAllArticlesEndpoint s req).2 = s ∧
        (getCommentsEndpoint s req).2 = s ∧
        (getArticleByIdEndpoint ((getArticleByIdEndpoint s req).2) req).1 =
          (getArticleByIdEndpoint s req).1) := by
  have haid : a.article_id = id := by
    have := List.find?_some ha
    simpa using this
  have h1 := adjustArticleVotesT_found s idStr id a d hid ha
  have hfind2 : (replaceVotes s.articles id (bumpVotes a d)).find?
      (fun x => x.article_id == id) = some (bumpVotes a d) :=
    find?_replaceVotes s.articles id a _ ha haid
  have h2 := adjustArticleVotesT_found
    { s with articles := replaceVotes s.articles id (bumpVotes a d) }
    idStr id (bumpVotes a d) d hid hfind2
  refine ⟨bumpVotes a d,
    { s with articles := replaceVotes s.articles id (bumpVotes a d) },
    by simp [adjustArticleVotes, h1], rfl,
    by simp [patchArticleEndpoint, adjustArticleVotes, h1],
    ⟨bumpVotes (bumpVotes a d) d,
     { s with articles := replaceVotes (replaceVotes s.articles id (bumpVotes a d)) id (bumpVotes (bumpVotes a d) d) },
     by simp [adjustArticleVotes, h2], rfl⟩,
    fun req => ?_⟩
  have hsnd : (getArticleByIdEndpoint s req).2 = s := runOutcome_snd s _
  exact ⟨runOutcome_snd s _, hsnd, runOutcome_snd s _, runOutcome_snd s _,
    by rw [hsnd]⟩

/-- Witness for C4 on the sample store: from votes 100, a delta of 5
yields 105 (and 110 when repeated), a delta of -150 yields -50 (and -200
when repeated). -/
theorem patch_applies_delta_witness :
    (∃ a1 s1, adjustArticleVotes sampleStore "1" [("inc_votes", 5)] = Except.ok (a1, s1) ∧
      a1.votes = 105 ∧
      (patchArticleEndpoint sampleStore { article_id := "1" } [("inc_votes", 5)]).1.status = 200 ∧
      (∃ a2 s2, adjustArticleVotes s1 "1" [("inc_votes", 5)] = Except.ok (a2, s2) ∧
        a2.votes = 110) ∧
      (∀ req : Req,
        (getTopicsEndpoint sampleStore req).2 = sampleStore ∧
        (getArticleByIdEndpoint sampleStore req).2 = sampleStore ∧
        (getAllArticlesEndpoint sampleStore req).2 = sampleStore ∧
        (getCommentsEndpoint sampleStore req).2 = sampleStore ∧
        (getArticleByIdEndpoint ((getArticleByIdEndpoint sampleStore req).2) req).1 =
          (getArticleByIdEndpoint sampleStore req).1)) ∧
    (∃ a1 s1, adjustArticleVotes sampleStore "1" [("inc_votes", -150)] = Except.ok (a1, s1) ∧
      a1.votes = -50 ∧
      (patchArticleEndpoint sampleStore { article_id := "1" } [("inc_votes", -150)]).1.status = 200 ∧
      (∃ a2 s2, adjustArticleVotes s1 "1" [("inc_votes", -150)] = Except.ok (a2, s2) ∧
        a2.votes = -200) ∧
      (∀ req : Req,
        (getTopicsEndpoint sampleStore req).2 = sampleStore ∧
        (getArticleByIdEndpoint sampleStore req).2 = sampleStore ∧
        (getAllArticlesEndpoint sampleStore req).2 = sampleStore ∧
        (getCommentsEndpoint sampleStore req).2 = sampleStore ∧
        (getArticleByIdEndpoint ((getArticleByIdEndpoint sampleStore req).2) req).1 =
          (getArticleByIdEndpoint sampleStore req).1)) :=
  ⟨patch_applies_delta sampleStore "1" 1
      ⟨1, "A", "mitch", "butter_bridge", "text", 100, 100, "img"⟩ 5 rfl rfl,
   patch_applies_delta sampleStore "1" 1
      ⟨1, "A", "mitch", "butter_bridge", "text", 100, 100, "img"⟩ (-150) rfl rfl⟩

/-- C3 (amended): GET /api/articles returns every article in the store
(the serialized rows are a permutation of the stored articles), sorted
descending — non-strictly — by created_at, and every returned row's
comment_count is exactly the number of comments referencing it, hence
numeric and ≥ 0, with zero-comment articles still included and reported
with comment_count 0. -/
theorem allArticles_sorted_counts (s : Store) (x : ArticleWithCount)
    (hx : x ∈ allArticlesRows s) :
    retrieveAllArticles s = Except.ok (allArticlesRows s) ∧
    ((allArticlesRows s).map ArticleWithCount.article).Perm s.articles ∧
    List.Pairwise (fun u v : ArticleWithCount =>
      v.article.created_at ≤ u.article.created_at) (allArticlesRows s) ∧
    x.comment_count = commentCount s x.article.article_id ∧
    (commentCount s x.article.article_id = 0 → x.comment_count = 0) ∧
    (∀ a ∈ s.articles, ∃ y ∈ allArticlesRows s,
      y.article = a ∧ y.comment_count = commentCount s a.article_id) := by
  obtain ⟨b, hb, hbx⟩ := List.mem_map.mp hx
  subst hbx
  refine ⟨rfl, ?_, ?_, rfl, fun h => h, ?_⟩
  · have hcomp : ((allArticlesRows s).map ArticleWithCount.article) =
        List.insertionSort articleDescLe s.articles := by
      unfold allArticlesRows
      rw [List.map_map]
      have hid : (ArticleWithCount.article ∘ fun a =>
          (⟨a, commentCount s a.article_id⟩ : ArticleWithCount)) = id := rfl
      rw [hid, List.map_id]
    rw [hcomp]
    exact List.perm_insertionSort articleDescLe s.articles
  · exact List.Pairwise.map _ (fun a b h => h)
      (List.sorted_insertionSort articleDescLe s.articles)
  · intro a haa
    have hmem : a ∈ List.insertionSort articleDescLe s.articles :=
      (List.perm_insertionSort articleDescLe s.articles).mem_iff.mpr haa
    exact ⟨⟨a, commentCount s a.article_id⟩,
      List.mem_map_of_mem _ hmem, rfl, rfl⟩

/-- Witness for C3 (amended) at the sample store, taking the zero-comment
article 2 as the inspected row. -/
theorem allArticles_sorted_counts_witness :
    retrieveAllArticles sampleStore = Except.ok (allArticlesRows sampleStore) ∧
    ((allArticlesRows sampleStore).map ArticleWithCount.article).Perm sampleStore.articles ∧
    List.Pairwise (fun u v : ArticleWithCount =>
      v.article.created_at ≤ u.article.created_at) (allArticlesRows sampleStore) ∧
    (ArticleWithCount.mk (Article.mk 2 "B" "mitch" "icellusedkars" "text2" 50 0 "img") 0).comment_count = 0 :=
  ⟨(allArticles_sorted_counts sampleStore
      ⟨⟨2, "B", "mitch", "icellusedkars", "text2", 50, 0, "img"⟩, 0⟩ (by decide)).1,
   (allArticles_sorted_counts sampleStore
      ⟨⟨2, "B", "mitch", "icellusedkars", "text2", 50, 0, "img"⟩, 0⟩ (by decide)).2.1,
   (allArticles_sorted_counts sampleStore
      ⟨⟨2, "B", "mitch", "icellusedkars", "text2", 50, 0, "img"⟩, 0⟩ (by decide)).2.2.1,
   (allArticles_sorted_counts sampleStore
      ⟨⟨2, "B", "mitch", "icellusedkars", "text2", 50, 0, "img"⟩, 0⟩ (by decide)).2.2.2.1⟩

/-- A store in which two articles share a created_at timestamp. -/
def twinStore : Store where
  topics := []
  users := []
  articles := [⟨1, "A", "t", "u", "b", 7, 0, "i"⟩, ⟨2, "B", "t", "u", "b", 7, 0, "i"⟩]
  comments := []
  nextCommentId := 1
  now := 0

/-- C3 counterexample: on a store where two articles share a created_at
timestamp, the article list cannot be strictly descending in created_at,
so the claim as stated (every article present AND strictly descending
order) fails. -/
theorem allArticles_not_strictly_sorted :
    ¬ (((allArticlesRows twinStore).map ArticleWithCount.article).Perm twinStore.articles ∧
      List.Pairwise (fun u v : ArticleWithCount =>
        v.article.created_at < u.article.created_at) (allArticlesRows twinStore)) := by
  decide
